import Mathlib

/-!
Verification of the EDD (estimated delivery date) service against its
specification.  The repository holds two variants of the same Express app:
`src/index.js` (the current variant) and `src/unnamed/part_000` (an earlier
variant of the same endpoint).  JavaScript strings are modelled as `List Char`,
JavaScript values by the inductive `JSVal` below, and every outbound HTTP call
by a `FetchOutcome` oracle supplied per request.  JavaScript numbers are
modelled by the integral fragment (`JSNum`): the integers plus NaN and the two
infinities, which covers every value the claims exercise; fractional doubles
are outside the scope of these claims.
-/

/-- JavaScript string model: a list of characters. -/
abbrev JSString := List Char

/-- The characters removed by the JavaScript `String.prototype.trim`
(ASCII fragment: space, tab, newline, carriage return, vertical tab,
form feed; the Unicode space classes are outside the inputs considered). -/
def jsWs (c : Char) : Bool :=
  c == ' ' || c == '\t' || c == '\n' || c == '\r' || c == '\x0b' || c == '\x0c'

/-- JavaScript `String.prototype.trim` on the character-list model:
drop leading and trailing whitespace. -/
def jsTrim (l : JSString) : JSString :=
  List.rdropWhile jsWs (l.dropWhile jsWs)

/-- JavaScript `String.prototype.split` with a single-character separator:
splits into the (always nonempty) list of separator-free segments. -/
def jsSplit (sep : Char) : JSString → List JSString
  | [] => [[]]
  | c :: rest =>
    match jsSplit sep rest with
    | [] => [[]]
    | g :: gs => if c = sep then [] :: g :: gs else (c :: g) :: gs

/-- First segment of a split: the characters before the first separator.
Used for `xff.split(",")[0]` and `t.split("%")[0]` in the source. -/
def firstSegment (sep : Char) (l : JSString) : JSString :=
  l.takeWhile (fun c => c ≠ sep)

/-- JavaScript number model: the integral fragment of IEEE doubles, plus
NaN and the infinities.  The claims only exercise integral values. -/
inductive JSNum where
  | int : Int → JSNum
  | nan : JSNum
  | inf : JSNum
  | ninf : JSNum
deriving DecidableEq, Repr

/-- JavaScript value model: the values flowing through this program
(JSON documents, query parameters, header strings). -/
inductive JSVal where
  | undefined : JSVal
  | null : JSVal
  | bool : Bool → JSVal
  | num : JSNum → JSVal
  | str : JSString → JSVal
  | obj : List (String × JSVal) → JSVal

/-- JavaScript truthiness. -/
def jsTruthy : JSVal → Bool
  | .undefined => false
  | .null => false
  | .bool b => b
  | .num (.int z) => z != 0
  | .num .nan => false
  | .num .inf => true
  | .num .ninf => true
  | .str s => !s.isEmpty
  | .obj _ => true

/-- JavaScript `a || b`: the first operand when truthy, otherwise the second. -/
def jsOr (a b : JSVal) : JSVal :=
  if jsTruthy a then a else b

/-- Property read with optional chaining, `v?.k`: field lookup on an object,
`undefined` on anything else (including `null` and `undefined` receivers). -/
def jsGetField : JSVal → String → JSVal
  | .obj fields, k =>
    match fields.lookup k with
    | some v => v
    | none => .undefined
  | _, _ => .undefined

/-- Value of a decimal-digit list. -/
def digitsToNat : JSString → Nat → Nat
  | [], acc => acc
  | c :: rest, acc => digitsToNat rest (acc * 10 + (c.toNat - '0'.toNat))

/-- JavaScript `Number(string)` coercion, on its decimal-integer fragment:
surrounding whitespace is ignored, the empty (or all-whitespace) string is 0,
an optional sign followed by decimal digits is that integer, and anything
else is NaN.  (Fractional, exponent and hex literals are outside the inputs
these claims exercise.) -/
def jsStrToNum (s : JSString) : JSNum :=
  match jsTrim s with
  | [] => .int 0
  | '-' :: ds => if ds ≠ [] ∧ ds.all Char.isDigit then .int (-(digitsToNat ds 0 : Int)) else .nan
  | '+' :: ds => if ds ≠ [] ∧ ds.all Char.isDigit then .int (digitsToNat ds 0 : Int) else .nan
  | ds => if ds.all Char.isDigit then .int (digitsToNat ds 0 : Int) else .nan

/-- JavaScript `Number(value)` coercion. -/
def jsToNumber : JSVal → JSNum
  | .num n => n
  | .str s => jsStrToNum s
  | .null => .int 0
  | .undefined => .nan
  | .bool b => .int (if b then 1 else 0)
  | .obj _ => .nan

/-- JavaScript `String(value)` coercion. -/
def jsToString : JSVal → JSString
  | .str s => s
  | .num (.int z) => (toString z).toList
  | .num .nan => "NaN".toList
  | .num .inf => "Infinity".toList
  | .num .ninf => "-Infinity".toList
  | .null => "null".toList
  | .undefined => "undefined".toList
  | .bool true => "true".toList
  | .bool false => "false".toList
  | .obj _ => "[object Object]".toList

/-- The regular expression of the source, `^\d{6}$`: exactly six ASCII
decimal digits. -/
def sixDigits (s : JSString) : Bool :=
  s.length == 6 && s.all Char.isDigit

/-- `isValidPin` from src/index.js line 41:
`/^\d{6}$/.test(String(pin || "").trim())`. -/
def isValidPin (pin : JSVal) : Bool :=
  sixDigits (jsTrim (jsToString (jsOr pin (.str []))))

/-- Truthiness of an optional header value (absent = `undefined`). -/
def hdrTruthy : Option JSString → Bool
  | some v => !v.isEmpty
  | none => false

/-- `getClientIp` from src/index.js lines 53-66.  Each header is `none` when
absent; `reqIp` is Express's `req.ip` and `peer` is `req.socket.remoteAddress`. -/
def getClientIp (realIp xff cf reqIp peer : Option JSString) : JSString :=
  if hdrTruthy realIp then jsTrim (realIp.getD [])
  else if hdrTruthy xff then jsTrim (firstSegment ',' (xff.getD []))
  else if hdrTruthy cf then jsTrim (cf.getD [])
  else jsTrim (if hdrTruthy reqIp then reqIp.getD []
               else if hdrTruthy peer then peer.getD [] else [])

/-- `normalizeIp` from src/index.js lines 69-77: strip the `::ffff:`
IPv4-mapped prefix and any `%` zone-index suffix. -/
def normalizeIp (ip : JSString) : JSString :=
  if ip.isEmpty then []
  else
    let s := jsTrim ip
    let s := if ("::ffff:".toList).isPrefixOf s then s.drop 7 else s
    if s.contains '%' then firstSegment '%' s else s

/-- `isPrivateIp` from src/index.js lines 80-95. -/
def isPrivateIp (ip : JSString) : Bool :=
  if ip.isEmpty then true
  else
    let s := jsTrim ip
    if s = "127.0.0.1".toList ∨ s = "::1".toList then true
    else if ("10.".toList).isPrefixOf s then true
    else if ("192.168.".toList).isPrefixOf s then true
    else if ("172.".toList).isPrefixOf s then
      match (jsSplit '.' s).get? 1 with
      | some part =>
        match jsStrToNum part with
        | .int second => decide (16 ≤ second ∧ second ≤ 31)
        | _ => false
      | none => false
    else false

/-- Outcome of one outbound `fetch` call, supplied as an oracle: the network
layer either rejects (`netError`) or delivers a response with an HTTP-ok flag
and a body that either parses as JSON (`some` document) or does not (`none`). -/
inductive FetchOutcome where
  | netError : FetchOutcome
  | reply : Bool → Option JSVal → FetchOutcome

/-- `safeFetchJson` from src/index.js lines 100-109.  Only `JSON.parse` is
inside the try block: a JSON parse failure degrades to `(false, null)`, but a
rejection of `fetch` itself propagates as an exception (`Except.error`). -/
def safeFetchJson : FetchOutcome → Except Unit (Bool × JSVal)
  | .netError => .error ()
  | .reply _ none => .ok (false, .null)
  | .reply ok (some j) => .ok (ok, j)

/-- The ipapi.co fallback block of `ipToPincode`, src/index.js lines 131-143:
on a delivered 2xx JSON body whose `postal` field validates, return the
trimmed pincode; on any delivered response that does not, return null;
a rejected fetch propagates. -/
def ipapiPin (g2 : FetchOutcome) : Except Unit (Option JSString) :=
  match safeFetchJson g2 with
  | .error e => .error e
  | .ok (ok, json) =>
    if ok && isValidPin (jsGetField json "postal") then
      .ok (some (jsTrim (jsToString (jsGetField json "postal"))))
    else .ok none

/-- `ipToPincode` from src/index.js lines 114-144.  `hasIpinfoToken` is the
presence of the IPINFO_TOKEN credential; `g1` is the outcome of the ipinfo.io
call and `g2` of the ipapi.co call.  When the token is present, the ipinfo.io
block runs first and every path of it that does not return a validated
pincode falls through to the ipapi.co block (`ipapiPin`). -/
def ipToPincode (hasIpinfoToken : Bool) (g1 g2 : FetchOutcome) :
    Except Unit (Option JSString) :=
  if hasIpinfoToken then
    match safeFetchJson g1 with
    | .error e => .error e
    | .ok (ok, json) =>
      if ok && isValidPin (jsGetField json "postal") then
        .ok (some (jsTrim (jsToString (jsGetField json "postal"))))
      else ipapiPin g2
  else ipapiPin g2

/-- The transit-field probe of src/index.js line 165:
`json?.tat || json?.data?.tat || json?.response?.tat`. -/
def probeTat (json : JSVal) : JSVal :=
  jsOr (jsGetField json "tat")
    (jsOr (jsGetField (jsGetField json "data") "tat")
      (jsGetField (jsGetField json "response") "tat"))

/-- `getDelhiveryTatDays` from src/index.js lines 149-171, as a function of
the carrier call's outcome.  (The request URL and the Authorization header are
built unconditionally; a missing DELHIVERY_TOKEN only changes what the carrier
answers, which the oracle already captures.) -/
def getDelhiveryTatDays (carrier : FetchOutcome) : Except Unit (Option JSNum) :=
  match safeFetchJson carrier with
  | .error e => .error e
  | .ok (ok, json) =>
    if !ok || !(jsTruthy json) then .ok none
    else
      let tat := probeTat json
      let tatNum := jsToNumber tat
      if !(jsTruthy tat) || tatNum == .nan then .ok none
      else .ok (some tatNum)

/-! Date model.  A JavaScript Date holds an absolute instant; we measure
instants in minutes since the epoch (an integer `t`) and let `off` be the
deployment's fixed local-time offset from UTC in minutes.  A calendar date is
identified with its day index (instant divided by 1440), which renders the
ISO date; two ISO dates are d days apart exactly when their indices are.
`getHours` reads the local clock, `setDate(getDate()+k)` moves the instant by
k*1440 (fixed offset, no DST), and `toISOString().slice(0,10)` renders the
UTC day index of the instant. -/

/-- The UTC calendar-day index of an instant (what `toISOString` renders). -/
def utcDay (t : Int) : Int := t / 1440

/-- The local calendar-day index of an instant. -/
def localDay (t off : Int) : Int := (t + off) / 1440

/-- The local hour of an instant (what `getHours` returns, 0..23). -/
def localHour (t off : Int) : Int := ((t + off) % 1440) / 60

/-- The cutoff of src/index.js lines 214-216: at or after 15:00 local time the
pickup moves one day forward. -/
def pickupShift (t off : Int) : Int :=
  if 15 ≤ localHour t off then 1 else 0

/-- The `edd` field of src/index.js lines 210-226 as a day index: the UTC day
of the instant reached by advancing now by the pickup shift plus the transit
days (all date arithmetic in local calendar days, rendering in UTC). -/
def eddDayOf (t off tat : Int) : Int :=
  utcDay (t + (pickupShift t off + tat) * 1440)

/-- The JSON body and status the endpoint answers with (fields absent from a
given body are `none`; `edd` is carried as a day index). -/
structure HttpResponse where
  status : Nat
  ok : Bool
  message : Option JSString
  pincode : Option JSString
  resolvedFrom : Option JSString
  tatDays : Option JSNum
  edd : Option Int
deriving DecidableEq, Repr

/-- `fail` from src/index.js lines 176-181: the uniform failure body, with the
default 200 status (no status is ever set on this path). -/
def failResp : HttpResponse :=
  { status := 200, ok := false, message := some ("Please enter pincode.".toList),
    pincode := none, resolvedFrom := none, tatDays := none, edd := none }

/-- The request-dependent inputs of the /edd handler: the `pin` query
parameter and the client-address sources. -/
structure Req where
  pinQ : JSVal
  realIp : Option JSString
  xff : Option JSString
  cf : Option JSString
  reqIp : Option JSString
  peer : Option JSString

/-- The per-request outcomes of the outbound calls and the credential state. -/
structure Oracle where
  ipinfoToken : Bool
  geo1 : FetchOutcome
  geo2 : FetchOutcome
  carrier : FetchOutcome

/-- The destination-pin resolution stage of the /edd handler, src/index.js
lines 189-204.  Returns the resolved `(pincode, resolved_from)` pair (or
`none` for the fail paths, or a propagated exception) together with a flag
recording whether the IP/geolocation branch was entered at all. -/
def resolveDestination (rq : Req) (oc : Oracle) :
    Except Unit (Option (JSString × JSString)) × Bool :=
  let destinationPin := jsTrim (jsToString (jsOr rq.pinQ (.str [])))
  if isValidPin (.str destinationPin) then
    (.ok (some (destinationPin, "query".toList)), false)
  else
    let ip := normalizeIp (getClientIp rq.realIp rq.xff rq.cf rq.reqIp rq.peer)
    if ip.isEmpty || isPrivateIp ip then (.ok none, true)
    else
      match ipToPincode oc.ipinfoToken oc.geo1 oc.geo2 with
      | .error e => (.error e, true)
      | .ok none => (.ok none, true)
      | .ok (some p) =>
        if p.isEmpty then (.ok none, true) else (.ok (some (p, "ip".toList)), true)

/-- The /edd handler of src/index.js lines 186-233.  Every exception
(a rejected fetch, or `toISOString` on the invalid date produced by an
infinite day count) is caught by the top-level catch and mapped to `fail`. -/
def eddHandler (rq : Req) (oc : Oracle) (t off : Int) : HttpResponse :=
  match (resolveDestination rq oc).1 with
  | .error _ => failResp
  | .ok none => failResp
  | .ok (some (pin, src)) =>
    match getDelhiveryTatDays oc.carrier with
    | .error _ => failResp
    | .ok none => failResp
    | .ok (some tat) =>
      if !(jsTruthy (.num tat)) then failResp
      else
        match tat with
        | .int z =>
          { status := 200, ok := true, message := none, pincode := some pin,
            resolvedFrom := some src, tatDays := some tat,
            edd := some (eddDayOf t off z) }
        | _ => failResp

/-- The /edd handler of the earlier variant, src/unnamed/part_000 lines 15-59.
It validates the pin directly (no IP fallback), calls `r.json()` with no
guard (so a network failure or a non-JSON body throws, landing in the catch
which answers HTTP 500 with message "Server error"), never checks the HTTP-ok
flag, and answers HTTP 400 with message "Invalid pincode" for a bad pin. -/
def eddHandlerOld (pinQ : JSVal) (carrier : FetchOutcome) (t off : Int) : HttpResponse :=
  let destinationPin := jsTrim (jsToString (jsOr pinQ (.str [])))
  if !(sixDigits destinationPin) then
    { status := 400, ok := false, message := some ("Invalid pincode".toList),
      pincode := none, resolvedFrom := none, tatDays := none, edd := none }
  else
    match carrier with
    | .netError =>
      { status := 500, ok := false, message := some ("Server error".toList),
        pincode := none, resolvedFrom := none, tatDays := none, edd := none }
    | .reply _ none =>
      { status := 500, ok := false, message := some ("Server error".toList),
        pincode := none, resolvedFrom := none, tatDays := none, edd := none }
    | .reply _ (some json) =>
      let tat := probeTat json
      let tatNum := jsToNumber tat
      if !(jsTruthy tat) || tatNum == .nan then
        { status := 200, ok := false,
          message := some ("EDD not available for this pincode".toList),
          pincode := none, resolvedFrom := none, tatDays := none, edd := none }
      else
        match tatNum with
        | .int z =>
          { status := 200, ok := true, message := none, pincode := none,
            resolvedFrom := none, tatDays := some tatNum,
            edd := some (eddDayOf t off z) }
        | _ =>
          { status := 500, ok := false, message := some ("Server error".toList),
            pincode := none, resolvedFrom := none, tatDays := none, edd := none }

/-! Auxiliary lemmas about trimming, splitting and the coercions. -/

/-- Removing trailing whitespace and then the (absent) leading whitespace of
the remainder glues back to the original list. -/
theorem rdropWhile_append_rtakeWhile (p : Char → Bool) (l : List Char) :
    List.rdropWhile p l ++ List.rtakeWhile p l = l := by
  rw [List.rdropWhile, List.rtakeWhile, ← List.reverse_append,
    List.takeWhile_append_dropWhile, List.reverse_reverse]

/-- A nonempty whitespace-free prefix is untouched by the trailing-whitespace
drop. -/
theorem rdropWhile_ws_append (pre r : JSString) (hne : pre ≠ [])
    (hpre : ∀ c ∈ pre, jsWs c = false) :
    List.rdropWhile jsWs (pre ++ r) = pre ++ List.rdropWhile jsWs r := by
  unfold List.rdropWhile
  rw [List.reverse_append, List.dropWhile_append]
  obtain ⟨c, cs, hc⟩ : ∃ c cs, pre.reverse = c :: cs := by
    cases h : pre.reverse with
    | nil => exact absurd (List.reverse_eq_nil_iff.mp h) hne
    | cons c cs => exact ⟨c, cs, rfl⟩
  have hcmem : c ∈ pre := by
    have : c ∈ pre.reverse := by rw [hc]; exact List.mem_cons_self c cs
    exact List.mem_reverse.mp this
  split
  · rename_i hemp
    rw [hc, List.dropWhile_cons_of_neg (by simp [hpre c hcmem]), ← hc,
      List.reverse_reverse]
    have : r.reverse.dropWhile jsWs = [] := List.isEmpty_iff.mp hemp
    rw [this, List.reverse_nil, List.append_nil]
  · rw [List.reverse_append, List.reverse_reverse]

/-- Trimming a whitespace-free nonempty prefix followed by anything only
trims the tail. -/
theorem jsTrim_nonws_append (pre r : JSString) (hne : pre ≠ [])
    (hpre : ∀ c ∈ pre, jsWs c = false) :
    jsTrim (pre ++ r) = pre ++ List.rdropWhile jsWs r := by
  unfold jsTrim
  obtain ⟨c, cs, rfl⟩ : ∃ c cs, pre = c :: cs := by
    cases pre with
    | nil => exact absurd rfl hne
    | cons c cs => exact ⟨c, cs, rfl⟩
  rw [List.cons_append, List.dropWhile_cons_of_neg
    (by simp [hpre c (List.mem_cons_self c cs)]), ← List.cons_append,
    rdropWhile_ws_append _ _ hne hpre]

/-- Trimming whitespace around a nonempty whitespace-free core recovers
exactly the core. -/
theorem jsTrim_ws_core_ws (pre core post : JSString)
    (hpre : ∀ c ∈ pre, jsWs c = true) (hpost : ∀ c ∈ post, jsWs c = true)
    (hne : core ≠ []) (hcore : ∀ c ∈ core, jsWs c = false) :
    jsTrim (pre ++ (core ++ post)) = core := by
  unfold jsTrim
  rw [List.dropWhile_append_of_pos hpre]
  obtain ⟨c, cs, rfl⟩ : ∃ c cs, core = c :: cs := by
    cases core with
    | nil => exact absurd rfl hne
    | cons c cs => exact ⟨c, cs, rfl⟩
  rw [List.cons_append, List.dropWhile_cons_of_neg
    (by simp [hcore c (List.mem_cons_self c cs)]), ← List.cons_append,
    rdropWhile_ws_append _ _ hne hcore,
    List.rdropWhile_eq_nil_iff.mpr hpost, List.append_nil]

/-- Trimming is idempotent. -/
theorem jsTrim_idem (l : JSString) : jsTrim (jsTrim l) = jsTrim l := by
  unfold jsTrim
  have hstable : (l.dropWhile jsWs).dropWhile jsWs = l.dropWhile jsWs :=
    List.dropWhile_idempotent jsWs l
  have hstep : (List.rdropWhile jsWs (l.dropWhile jsWs)).dropWhile jsWs =
      List.rdropWhile jsWs (l.dropWhile jsWs) := by
    cases hr : List.rdropWhile jsWs (l.dropWhile jsWs) with
    | nil => rfl
    | cons a t =>
      obtain ⟨s, hs⟩ := List.rdropWhile_prefix jsWs (l.dropWhile jsWs)
      rw [hr] at hs
      have hm : l.dropWhile jsWs = a :: (t ++ s) := by
        rw [← hs]; rfl
      have hna : ¬ jsWs a := by
        have := hstable
        rw [hm] at this
        by_contra hc
        rw [List.dropWhile_cons_of_pos (by simpa using hc)] at this
        have hlen := congrArg List.length this
        simp only [List.length_cons] at hlen
        have hle := (List.dropWhile_sublist (l := t ++ s) jsWs).length_le
        omega
      exact List.dropWhile_cons_of_neg hna
  rw [hstep, List.rdropWhile_idempotent]

/-- Boolean reading of the six-digit test. -/
theorem sixDigits_iff (l : JSString) :
    sixDigits l = true ↔ l.length = 6 ∧ ∀ c ∈ l, c.isDigit = true := by
  simp [sixDigits, List.all_eq_true]

/-- A decimal digit is not JavaScript whitespace. -/
theorem digit_not_ws (c : Char) (h : c.isDigit = true) : jsWs c = false := by
  cases hw : jsWs c with
  | false => rfl
  | true =>
    exfalso
    simp only [jsWs, Bool.or_eq_true, beq_iff_eq] at hw
    rcases hw with ((((h1 | h1) | h1) | h1) | h1) | h1 <;> subst h1 <;>
      simp [Char.isDigit] at h

/-- Padding a string value with the empty-string default changes nothing. -/
theorem jsOr_str_nil (d : JSString) : jsOr (.str d) (.str []) = .str d := by
  unfold jsOr jsTruthy
  cases d <;> simp

/-- `isValidPin` on a string value is the six-digit test of its trim. -/
theorem isValidPin_str (d : JSString) : isValidPin (.str d) = sixDigits (jsTrim d) := by
  unfold isValidPin
  rw [jsOr_str_nil]
  rfl

/-- A value accepted by `isValidPin` stringifies and trims to six digits. -/
theorem sixDigits_of_isValidPin (v : JSVal) (h : isValidPin v = true) :
    sixDigits (jsTrim (jsToString v)) = true := by
  unfold isValidPin jsOr at h
  split at h
  · exact h
  · exact absurd h (by decide)

/-- Re-validating the handler's trimmed pin string agrees with validating the
raw query value. -/
theorem isValidPin_trim_toString (v : JSVal) :
    isValidPin (.str (jsTrim (jsToString (jsOr v (.str []))))) = isValidPin v := by
  rw [isValidPin_str, jsTrim_idem]
  rfl

/-- Splitting never yields an empty list of segments. -/
theorem jsSplit_ne_nil (sep : Char) (l : JSString) : jsSplit sep l ≠ [] := by
  cases l with
  | nil => simp [jsSplit]
  | cons c rest =>
    unfold jsSplit
    split
    · simp
    · split <;> simp

/-- One unfolding step of `jsSplit` when the tail's segments are known. -/
theorem jsSplit_cons (sep c : Char) (l : JSString) (g : JSString)
    (gs : List JSString) (h : jsSplit sep l = g :: gs) :
    jsSplit sep (c :: l) = if c = sep then [] :: g :: gs else (c :: g) :: gs := by
  unfold jsSplit
  rw [h]

/-- Any pincode the ipapi.co block returns is six digits. -/
theorem ipapiPin_valid (g2 : FetchOutcome) (p : JSString)
    (h : ipapiPin g2 = .ok (some p)) : sixDigits p = true := by
  unfold ipapiPin at h
  split at h
  · exact Except.noConfusion h
  · split at h
    · rename_i hcond
      simp only [Except.ok.injEq, Option.some.injEq] at h
      rw [← h]
      exact sixDigits_of_isValidPin _ (Bool.and_eq_true_iff.mp hcond).2
    · simp at h

/-! Claim theorems. -/

/-- C1 (amended): on the current handler (src/index.js) every request is
answered with HTTP status 200, and every non-success answer is exactly the
uniform body with ok false and message "Please enter pincode.".  (The claim
as frozen extends this to the earlier variant of the endpoint, which the
counterexample refutes.) -/
theorem C1_uniform_failure (rq : Req) (oc : Oracle) (t off : Int) :
    (eddHandler rq oc t off).status = 200 ∧
    ((eddHandler rq oc t off).ok = false → eddHandler rq oc t off = failResp) := by
  unfold eddHandler
  repeat' split
  all_goals simp [failResp]

/-- C1 counterexample: the earlier variant of the /edd endpoint
(src/unnamed/part_000), at the request `?pin=abc`, answers HTTP status 400
with the body message "Invalid pincode" — a client-error status and a body
different from the uniform "Please enter pincode." body. -/
theorem C1_counterexample :
    (eddHandlerOld (.str ['a', 'b', 'c']) (.reply true none) 0 0).status = 400 ∧
    (eddHandlerOld (.str ['a', 'b', 'c']) (.reply true none) 0 0).message =
      some ("Invalid pincode".toList) ∧
    (eddHandlerOld (.str ['a', 'b', 'c']) (.reply true none) 0 0).message ≠
      some ("Please enter pincode.".toList) := by
  refine ⟨rfl, rfl, ?_⟩
  decide

/-- C1 witness: a concrete failing request (no pin, no address sources) gets
status 200 and the uniform failure body. -/
theorem C1_witness :
    (eddHandler
      { pinQ := .undefined, realIp := none, xff := none, cf := none,
        reqIp := none, peer := none }
      { ipinfoToken := false, geo1 := .netError, geo2 := .netError,
        carrier := .netError } 0 0).status = 200 ∧
    eddHandler
      { pinQ := .undefined, realIp := none, xff := none, cf := none,
        reqIp := none, peer := none }
      { ipinfoToken := false, geo1 := .netError, geo2 := .netError,
        carrier := .netError } 0 0 = failResp :=
  ⟨(C1_uniform_failure _ _ 0 0).1, (C1_uniform_failure _ _ 0 0).2 rfl⟩

/-- C2 (amended): when the request's UTC calendar day coincides with its
local calendar day (for instance in a deployment whose local time is UTC),
the edd day index is the request day advanced by the transit-day count before
the 15:00 local cutoff and by one more at or after it.  In general the code
renders the UTC day of the locally-computed delivery instant, which the
counterexample shows can be one day earlier than the claim's local reading. -/
theorem C2_delivery_date (t off tat : Int) (hsame : utcDay t = localDay t off) :
    (localHour t off < 15 → eddDayOf t off tat = localDay t off + tat) ∧
    (15 ≤ localHour t off → eddDayOf t off tat = localDay t off + tat + 1) := by
  simp only [utcDay, localDay, localHour, eddDayOf, pickupShift] at hsame ⊢
  constructor <;> intro h <;> split <;> omega

/-- C2 counterexample: at the instant 1230 minutes after the epoch in a
deployment 330 minutes ahead of UTC (local time 02:00 on day 1), with
transit days 3 and the cutoff not reached, the claim demands delivery day
1 + 3 = 4, but the endpoint's edd field renders day 3. -/
theorem C2_counterexample :
    localHour 1230 330 = 2 ∧ localDay 1230 330 = 1 ∧
    eddDayOf 1230 330 3 = 3 ∧ (3 : Int) ≠ 1 + 3 := by
  decide

/-- C2 witness: at 10:00 UTC on day 0 in a UTC deployment with transit days
3, the edd day is day 3. -/
theorem C2_witness :
    localHour 600 0 < 15 ∧ eddDayOf 600 0 3 = localDay 600 0 + 3 :=
  ⟨by decide, (C2_delivery_date 600 0 3 (by decide)).1 (by decide)⟩

/-- C4 (amended): the transit-time client yields "unavailable" (null) for a
non-2xx status, a non-JSON body, or a missing/falsy/non-numeric transit
field; any number it does return is non-NaN — but, as the counterexample
shows, it can be negative (the code only filters falsy and NaN values), and
a network failure propagates as an exception to the endpoint's catch instead
of being returned as "unavailable". -/
theorem C4_tat_client :
    getDelhiveryTatDays .netError = .error () ∧
    (∀ b, getDelhiveryTatDays (.reply b none) = .ok none) ∧
    (∀ j, getDelhiveryTatDays (.reply false j) = .ok none) ∧
    (∀ j, jsTruthy (probeTat j) = false →
      getDelhiveryTatDays (.reply true (some j)) = .ok none) ∧
    (∀ j, jsToNumber (probeTat j) = .nan →
      getDelhiveryTatDays (.reply true (some j)) = .ok none) ∧
    (∀ f n, getDelhiveryTatDays f = .ok (some n) → n ≠ .nan) := by
  refine ⟨rfl, ?_, ?_, ?_, ?_, ?_⟩
  · intro b
    cases b <;> rfl
  · intro j
    cases j <;> rfl
  · intro j h
    unfold getDelhiveryTatDays safeFetchJson
    by_cases hj : jsTruthy j
    · simp [hj, h]
    · simp [hj]
  · intro j h
    unfold getDelhiveryTatDays safeFetchJson
    by_cases hj : jsTruthy j
    · simp [hj, h]
    · simp [hj]
  · intro f n h
    unfold getDelhiveryTatDays at h
    cases f with
    | netError => exact absurd h (by simp [safeFetchJson])
    | reply b body =>
      cases body with
      | none => exact absurd h (by simp [safeFetchJson])
      | some j =>
        simp only [safeFetchJson] at h
        split at h
        · exact absurd h (by simp)
        · split at h
          · exact absurd h (by simp)
          · rename_i hguard
            simp only [Except.ok.injEq, Option.some.injEq] at h
            intro hn
            rw [hn] at h
            rw [h] at hguard
            simp at hguard

/-- C4 counterexample: a delivered 2xx JSON body whose transit field is the
number -3 makes the client return -3, a negative day count, which the claim
says can never happen. -/
theorem C4_counterexample :
    getDelhiveryTatDays (.reply true (some (.obj [("tat", .num (.int (-3)))]))) =
      .ok (some (.int (-3))) ∧ (-3 : Int) < 0 := by
  exact ⟨rfl, by decide⟩

/-- C4 witness: the non-2xx clause at a concrete carrier reply. -/
theorem C4_witness :
    getDelhiveryTatDays (.reply false (some (.obj [("tat", .num (.int 5))]))) =
      .ok none :=
  C4_tat_client.2.2.1 (some (.obj [("tat", .num (.int 5))]))

/-- C9 (amended): the three example carrier bodies all yield transit days 5,
and the shapes are probed in the fixed order top-level, then under "data",
then under "response" — but the winner is the first truthy value (JavaScript
or-chaining), which is then coerced to a number; when that coercion yields
NaN the client reports "unavailable" without trying the later shapes, as the
counterexample shows. -/
theorem C9_shape_probing :
    getDelhiveryTatDays (.reply true (some (.obj [("tat", .num (.int 5))]))) =
      .ok (some (.int 5)) ∧
    getDelhiveryTatDays (.reply true (some (.obj
      [("data", .obj [("tat", .num (.int 5))])]))) = .ok (some (.int 5)) ∧
    getDelhiveryTatDays (.reply true (some (.obj
      [("response", .obj [("tat", .num (.int 5))])]))) = .ok (some (.int 5)) ∧
    (∀ j, jsTruthy (jsGetField j "tat") = true →
      probeTat j = jsGetField j "tat") ∧
    (∀ j, jsTruthy (jsGetField j "tat") = false →
      jsTruthy (jsGetField (jsGetField j "data") "tat") = true →
      probeTat j = jsGetField (jsGetField j "data") "tat") ∧
    (∀ j, jsTruthy (jsGetField j "tat") = false →
      jsTruthy (jsGetField (jsGetField j "data") "tat") = false →
      probeTat j = jsGetField (jsGetField j "response") "tat") := by
  refine ⟨rfl, rfl, rfl, ?_, ?_, ?_⟩
  · intro j h
    unfold probeTat jsOr
    simp [h]
  · intro j h1 h2
    unfold probeTat jsOr
    simp [h1, h2]
  · intro j h1 h2
    unfold probeTat jsOr
    simp [h1, h2]

/-- C9 counterexample: in the body with top-level tat "x" and data.tat 5, the
first numeric non-NaN value is 5, so by the claim's probing rule transit days
should be 5; the code instead lets the truthy string "x" win, coerces it to
NaN, and reports "unavailable". -/
theorem C9_counterexample :
    getDelhiveryTatDays (.reply true (some (.obj
      [("tat", .str ['x']), ("data", .obj [("tat", .num (.int 5))])]))) =
      .ok none ∧
    jsToNumber (.num (.int 5)) ≠ .nan := by
  exact ⟨rfl, by decide⟩

/-- C9 witness: a truthy top-level tat field wins the probe. -/
theorem C9_witness :
    probeTat (.obj [("tat", .num (.int 7))]) =
      jsGetField (.obj [("tat", .num (.int 7))]) "tat" :=
  C9_shape_probing.2.2.2.1 _ (by decide)

/-- C10 (amended): a transit field equal to the number 0 (or any other falsy
value, such as the empty string) is treated as "unavailable"; nevertheless
the client can return 0 when the field is a truthy string coercing to 0
(counterexample: "0"), and it is the endpoint's own falsiness re-check that
guarantees every success response carries a nonzero transit-day count. -/
theorem C10_zero_unavailable :
    getDelhiveryTatDays (.reply true (some (.obj [("tat", .num (.int 0))]))) =
      .ok none ∧
    getDelhiveryTatDays (.reply true (some (.obj [("tat", .str [])]))) =
      .ok none ∧
    (∀ rq oc t off, (eddHandler rq oc t off).ok = true →
      ∃ z : Int, (eddHandler rq oc t off).tatDays = some (.int z) ∧ z ≠ 0) := by
  refine ⟨rfl, rfl, ?_⟩
  intro rq oc t off
  unfold eddHandler
  repeat' split
  all_goals intro h
  · exact Bool.noConfusion h
  · exact Bool.noConfusion h
  · exact Bool.noConfusion h
  · exact Bool.noConfusion h
  · exact Bool.noConfusion h
  · rename_i z heq2 hguard
    refine ⟨z, rfl, ?_⟩
    simpa [jsTruthy] using hguard
  · exact Bool.noConfusion h

/-- C10 counterexample: a carrier body whose transit field is the string "0"
is truthy, coerces to the number 0, and is returned — the transit-time client
can return 0, contrary to the claim. -/
theorem C10_counterexample :
    getDelhiveryTatDays (.reply true (some (.obj [("tat", .str ['0'])]))) =
      .ok (some (.int 0)) := rfl

/-- C10 witness: a concrete success response carries a nonzero transit-day
count. -/
theorem C10_witness :
    ∃ z : Int,
      (eddHandler
        { pinQ := .str ("411005".toList), realIp := none, xff := none,
          cf := none, reqIp := none, peer := none }
        { ipinfoToken := false, geo1 := .netError, geo2 := .netError,
          carrier := .reply true (some (.obj [("tat", .num (.int 2))])) }
        600 0).tatDays = some (.int z) ∧ z ≠ 0 :=
  C10_zero_unavailable.2.2 _ _ 600 0 rfl

/-- C3 (amended): the IP-to-pincode resolver returns a syntactically valid
six-digit postal code or null; a non-JSON, non-2xx or invalid-postal response
from the higher-priority provider degrades to "no result" and the
lower-priority provider is tried; and a missing credential skips the
higher-priority provider entirely.  But, as the counterexample shows, a
network-level failure of an attempted provider call propagates as an
exception to the endpoint (which catches it) instead of the next provider
being tried. -/
theorem C3_geo_resolver :
    (∀ tok g1 g2 p, ipToPincode tok g1 g2 = .ok (some p) → sixDigits p = true) ∧
    (∀ b g2, ipToPincode true (.reply b none) g2 = ipapiPin g2) ∧
    (∀ j g2, isValidPin (jsGetField j "postal") = false →
      ipToPincode true (.reply true (some j)) g2 = ipapiPin g2) ∧
    (∀ j g2, ipToPincode true (.reply false j) g2 = ipapiPin g2) ∧
    (∀ g1 g2, ipToPincode false g1 g2 = ipapiPin g2) := by
  refine ⟨?_, ?_, ?_, ?_, ?_⟩
  · intro tok g1 g2 p hp
    unfold ipToPincode at hp
    split at hp
    · split at hp
      · exact Except.noConfusion hp
      · split at hp
        · rename_i hcond
          simp only [Except.ok.injEq, Option.some.injEq] at hp
          rw [← hp]
          exact sixDigits_of_isValidPin _ (Bool.and_eq_true_iff.mp hcond).2
        · exact ipapiPin_valid _ _ hp
    · exact ipapiPin_valid _ _ hp
  · intro b g2
    rfl
  · intro j g2 h
    unfold ipToPincode
    rw [if_pos rfl]
    show (match safeFetchJson (.reply true (some j)) with
      | .error e => .error e
      | .ok (ok, json) =>
        if ok && isValidPin (jsGetField json "postal") then
          .ok (some (jsTrim (jsToString (jsGetField json "postal"))))
        else ipapiPin g2) = ipapiPin g2
    simp [safeFetchJson, h]
  · intro j g2
    cases j <;> rfl
  · intro g1 g2
    rfl

/-- C3 counterexample: with the credential present, a network failure of the
higher-priority (ipinfo.io) call makes the resolver raise an exception even
though the lower-priority provider would deliver the valid pincode 400001 —
the lower-priority provider is not tried, contrary to the claim. -/
theorem C3_counterexample :
    ipToPincode true .netError
      (.reply true (some (.obj [("postal", .str ("400001".toList))]))) =
      .error () ∧
    ipapiPin (.reply true (some (.obj [("postal", .str ("400001".toList))]))) =
      .ok (some ("400001".toList)) := by
  exact ⟨rfl, rfl⟩

/-- C3 witness: the validity clause at a concrete resolver run. -/
theorem C3_witness :
    sixDigits ("400001".toList) = true :=
  C3_geo_resolver.1 false .netError
    (.reply true (some (.obj [("postal", .str ("400001".toList))])))
    ("400001".toList) rfl

/-- C5 (amended): client-address extraction takes the first candidate in the
order x-real-ip header, first entry of the x-forwarded-for chain,
cf-connecting-ip header, then the transport peer chain (req.ip, then the
socket address, then empty) — not the claim's order, which puts the CDN
header before the forwarded-for chain; and a candidate header is selected
when it is present and non-empty before trimming, so a whitespace-only
header is selected and yields the empty string instead of falling through,
as the counterexample shows. -/
theorem C5_client_ip (realIp xff cf reqIp peer : Option JSString) :
    (∀ v, realIp = some v → v ≠ [] →
      getClientIp realIp xff cf reqIp peer = jsTrim v) ∧
    (hdrTruthy realIp = false → ∀ v, xff = some v → v ≠ [] →
      getClientIp realIp xff cf reqIp peer = jsTrim (firstSegment ',' v)) ∧
    (hdrTruthy realIp = false → hdrTruthy xff = false →
      ∀ v, cf = some v → v ≠ [] →
      getClientIp realIp xff cf reqIp peer = jsTrim v) ∧
    (hdrTruthy realIp = false → hdrTruthy xff = false → hdrTruthy cf = false →
      getClientIp realIp xff cf reqIp peer =
        jsTrim (if hdrTruthy reqIp then reqIp.getD []
                else if hdrTruthy peer then peer.getD [] else [])) := by
  refine ⟨?_, ?_, ?_, ?_⟩
  · intro v hv hne
    subst hv
    unfold getClientIp
    rw [if_pos (by simp [hdrTruthy, hne])]
    rfl
  · intro h1 v hv hne
    subst hv
    unfold getClientIp
    rw [if_neg (by simp [h1]), if_pos (by simp [hdrTruthy, hne])]
    rfl
  · intro h1 h2 v hv hne
    subst hv
    unfold getClientIp
    rw [if_neg (by simp [h1]), if_neg (by simp [h2]),
      if_pos (by simp [hdrTruthy, hne])]
    rfl
  · intro h1 h2 h3
    unfold getClientIp
    rw [if_neg (by simp [h1]), if_neg (by simp [h2]), if_neg (by simp [h3])]

/-- C5 counterexample: first, with a whitespace-only x-real-ip header and
nonempty forwarded-for and CDN headers, the extractor returns the empty
string rather than the next non-empty candidate; second, with no x-real-ip,
the forwarded-for entry beats the CDN header, refuting the claim's priority
order (CDN header before forwarded-for chain). -/
theorem C5_counterexample :
    getClientIp (some [' ']) (some ("7.7.7.7".toList))
      (some ("9.9.9.9".toList)) none (some ("3.3.3.3".toList)) = [] ∧
    getClientIp none (some ("7.7.7.7".toList)) (some ("9.9.9.9".toList))
      none none = "7.7.7.7".toList ∧
    "7.7.7.7".toList ≠ "9.9.9.9".toList := by
  refine ⟨rfl, rfl, ?_⟩
  decide

/-- C5 witness: a present non-empty x-real-ip header wins. -/
theorem C5_witness :
    getClientIp (some ("1.2.3.4".toList)) (some ("7.7.7.7".toList)) none none
      none = jsTrim ("1.2.3.4".toList) :=
  (C5_client_ip _ _ _ _ _).1 _ rfl (by decide)

/-- A successful handler response reports the resolved-from tag produced by
the resolution stage. -/
theorem eddHandler_resolvedFrom_of_ok (rq : Req) (oc : Oracle) (t off : Int) :
    (eddHandler rq oc t off).ok = true →
    ∃ pin src, (resolveDestination rq oc).1 = Except.ok (some (pin, src)) ∧
      (eddHandler rq oc t off).resolvedFrom = some src := by
  unfold eddHandler
  repeat' split
  all_goals intro hok
  · exact Bool.noConfusion hok
  · exact Bool.noConfusion hok
  · exact Bool.noConfusion hok
  · exact Bool.noConfusion hok
  · exact Bool.noConfusion hok
  · exact ⟨_, _, by assumption, rfl⟩
  · exact Bool.noConfusion hok

/-- C6 (confirmed): when the pin query value validates, the handler resolves
from the query without ever entering the IP/geolocation branch, the
resolution is tagged "query" (and a successful response reports
resolved_from "query"), and the resolution is identical across requests that
agree on the pin query value, whatever their address headers, peer address,
credential state or geolocation outcomes. -/
theorem C6_query_pin_no_geo (rq : Req) (oc : Oracle) (t off : Int)
    (h : isValidPin rq.pinQ = true) :
    (resolveDestination rq oc).2 = false ∧
    (resolveDestination rq oc).1 =
      .ok (some (jsTrim (jsToString (jsOr rq.pinQ (.str []))), "query".toList)) ∧
    ((eddHandler rq oc t off).ok = true →
      (eddHandler rq oc t off).resolvedFrom = some ("query".toList)) ∧
    (∀ rq2 oc2, rq2.pinQ = rq.pinQ →
      resolveDestination rq2 oc2 = resolveDestination rq oc) := by
  have hc : isValidPin (.str (jsTrim (jsToString (jsOr rq.pinQ (.str []))))) = true := by
    rw [isValidPin_trim_toString]
    exact h
  have hres : resolveDestination rq oc =
      (.ok (some (jsTrim (jsToString (jsOr rq.pinQ (.str []))), "query".toList)),
        false) := by
    unfold resolveDestination
    rw [if_pos hc]
  refine ⟨by rw [hres], by rw [hres], ?_, ?_⟩
  · intro hok
    obtain ⟨pin, src, h1, h2⟩ := eddHandler_resolvedFrom_of_ok rq oc t off hok
    rw [hres] at h1
    have h1x : Except.ok (some (jsTrim (jsToString (jsOr rq.pinQ (.str []))),
        "query".toList)) = Except.ok (some (pin, src)) := h1
    simp only [Except.ok.injEq, Option.some.injEq, Prod.mk.injEq] at h1x
    rw [h2, ← h1x.2]
  · intro rq2 oc2 hpq
    unfold resolveDestination
    rw [hpq, if_pos hc, if_pos hc]

/-- C6 witness: a concrete request with pin 411005 never enters the
geolocation branch. -/
theorem C6_witness :
    (resolveDestination
      { pinQ := .str ("411005".toList), realIp := some ("9.9.9.9".toList),
        xff := none, cf := none, reqIp := none, peer := none }
      { ipinfoToken := true, geo1 := .netError, geo2 := .netError,
        carrier := .netError }).2 = false :=
  (C6_query_pin_no_geo _ _ 0 0 (by decide)).1

/-- C7 (confirmed): the postal-code validator accepts a string exactly when
it is six decimal digits surrounded by (possibly empty) whitespace — i.e.,
when its trim is exactly six decimal digits; everything else (letters, wrong
length, empty, whitespace-only, separators, leading or trailing characters)
is rejected. -/
theorem C7_pin_validator (s : JSString) :
    isValidPin (.str s) = true ↔
      ∃ pre core post : JSString, s = pre ++ (core ++ post) ∧
        (∀ c ∈ pre, jsWs c = true) ∧ (∀ c ∈ post, jsWs c = true) ∧
        core.length = 6 ∧ (∀ c ∈ core, c.isDigit = true) := by
  rw [isValidPin_str]
  constructor
  · intro h
    obtain ⟨hlen, hdig⟩ := (sixDigits_iff _).mp h
    refine ⟨s.takeWhile jsWs, jsTrim s, (s.dropWhile jsWs).rtakeWhile jsWs,
      ?_, ?_, ?_, hlen, hdig⟩
    · rw [show jsTrim s ++ (s.dropWhile jsWs).rtakeWhile jsWs = s.dropWhile jsWs
        from rdropWhile_append_rtakeWhile jsWs (s.dropWhile jsWs)]
      exact (List.takeWhile_append_dropWhile jsWs s).symm
    · intro c hc
      exact List.mem_takeWhile_imp hc
    · intro c hc
      exact List.mem_rtakeWhile_imp hc
  · rintro ⟨pre, core, post, rfl, hpre, hpost, hlen, hdig⟩
    have hne : core ≠ [] := by
      intro h0
      rw [h0] at hlen
      simp at hlen
    rw [jsTrim_ws_core_ws pre core post hpre hpost hne
      (fun c hc => digit_not_ws c (hdig c hc))]
    exact (sixDigits_iff _).mpr ⟨hlen, hdig⟩

/-- C7 witness: six digits with surrounding whitespace are accepted. -/
theorem C7_witness :
    isValidPin (.str ("  411005 ".toList)) = true :=
  (C7_pin_validator _).mpr ⟨"  ".toList, "411005".toList, " ".toList,
    by decide, by decide, by decide, by decide, by decide⟩

/-- C8 (confirmed): the private-address filter accepts the two exact loopback
forms, the empty input, every address with prefix "10." or "192.168.", and
every address with prefix "172." whose second dotted octet is a number
between 16 and 31 inclusive; it rejects the representative public address
8.8.8.8. -/
theorem C8_private_filter :
    isPrivateIp ("127.0.0.1".toList) = true ∧
    isPrivateIp ("::1".toList) = true ∧
    isPrivateIp [] = true ∧
    isPrivateIp ("8.8.8.8".toList) = false ∧
    (∀ ip, ("10.".toList).isPrefixOf ip = true → isPrivateIp ip = true) ∧
    (∀ ip, ("192.168.".toList).isPrefixOf ip = true → isPrivateIp ip = true) ∧
    (∀ ip pt second, ("172.".toList).isPrefixOf ip = true →
      (jsSplit '.' (jsTrim ip)).get? 1 = some pt →
      jsStrToNum pt = .int second → 16 ≤ second → second ≤ 31 →
      isPrivateIp ip = true) := by
  refine ⟨by decide, by decide, by decide, by decide, ?_, ?_, ?_⟩
  · intro ip hp
    obtain ⟨r, rfl⟩ : ∃ r, ip = '1' :: '0' :: '.' ::r := by
      obtain ⟨r, hr⟩ := List.isPrefixOf_iff_prefix.mp hp
      exact ⟨r, by rw [← hr]; rfl⟩
    have hs : jsTrim ('1' :: '0' :: '.' ::r) =
        '1' :: '0' :: '.' ::(List.rdropWhile jsWs r) := by
      have h := jsTrim_nonws_append ['1', '0', '.'] r (by simp) (by decide)
      simpa using h
    unfold isPrivateIp
    rw [show ('1' :: '0' :: '.' ::r).isEmpty = false from rfl]
    simp only [Bool.false_eq_true, if_false]
    rw [hs]
    rw [if_neg (by simp), if_pos (by simp [List.isPrefixOf])]
  · intro ip hp
    obtain ⟨r, rfl⟩ : ∃ r, ip = '1' :: '9' :: '2' :: '.' :: '1' :: '6' :: '8' :: '.' ::r := by
      obtain ⟨r, hr⟩ := List.isPrefixOf_iff_prefix.mp hp
      exact ⟨r, by rw [← hr]; rfl⟩
    have hs : jsTrim ('1' :: '9' :: '2' :: '.' :: '1' :: '6' :: '8' :: '.' ::r) =
        '1' :: '9' :: '2' :: '.' :: '1' :: '6' :: '8' :: '.' ::(List.rdropWhile jsWs r) := by
      have h := jsTrim_nonws_append ['1', '9', '2', '.', '1', '6', '8', '.'] r
        (by simp) (by decide)
      simpa using h
    unfold isPrivateIp
    rw [show ('1' :: '9' :: '2' :: '.' :: '1' :: '6' :: '8' :: '.' ::r).isEmpty = false from rfl]
    simp only [Bool.false_eq_true, if_false]
    rw [hs]
    rw [if_neg (by simp), if_neg (by simp [List.isPrefixOf]),
      if_pos (by simp [List.isPrefixOf])]
  · intro ip pt second hp hpt hnum h16 h31
    obtain ⟨r, rfl⟩ : ∃ r, ip = '1' :: '7' :: '2' :: '.' ::r := by
      obtain ⟨r, hr⟩ := List.isPrefixOf_iff_prefix.mp hp
      exact ⟨r, by rw [← hr]; rfl⟩
    have hs : jsTrim ('1' :: '7' :: '2' :: '.' ::r) =
        '1' :: '7' :: '2' :: '.' ::(List.rdropWhile jsWs r) := by
      have h := jsTrim_nonws_append ['1', '7', '2', '.'] r (by simp) (by decide)
      simpa using h
    rw [hs] at hpt
    obtain ⟨g, gs, hg⟩ : ∃ g gs, jsSplit '.' (List.rdropWhile jsWs r) = g :: gs :=
      List.exists_cons_of_ne_nil (jsSplit_ne_nil '.' _)
    have h4 := jsSplit_cons '.' '.' (List.rdropWhile jsWs r) g gs hg
    simp only [if_pos rfl] at h4
    have h3 := jsSplit_cons '.' '2' ('.' ::(List.rdropWhile jsWs r)) [] (g::gs) h4
    rw [if_neg (by decide)] at h3
    have h2 := jsSplit_cons '.' '7' ('2' :: '.' ::(List.rdropWhile jsWs r)) ['2']
      (g::gs) h3
    rw [if_neg (by decide)] at h2
    have h1 := jsSplit_cons '.' '1' ('7' :: '2' :: '.' ::(List.rdropWhile jsWs r))
      ['7', '2'] (g::gs) h2
    rw [if_neg (by decide)] at h1
    rw [h1] at hpt
    have hgpt : g = pt := by simpa using hpt
    unfold isPrivateIp
    rw [show ('1' :: '7' :: '2' :: '.' ::r).isEmpty = false from rfl]
    simp only [Bool.false_eq_true, if_false]
    rw [hs]
    rw [if_neg (by simp), if_neg (by simp [List.isPrefixOf]),
      if_neg (by simp [List.isPrefixOf]), if_pos (by simp [List.isPrefixOf])]
    rw [h1]
    simp only [List.get?]
    rw [hgpt, hnum]
    exact decide_eq_true ⟨h16, h31⟩

/-- C8 witness: concrete members of the private families are accepted. -/
theorem C8_witness :
    isPrivateIp ("10.2.3.4".toList) = true ∧
    isPrivateIp ("172.20.1.3".toList) = true :=
  ⟨C8_private_filter.2.2.2.2.1 _ (by decide),
    C8_private_filter.2.2.2.2.2.2 _ ("20".toList) 20 (by decide) (by decide)
      (by decide) (by decide) (by decide)⟩
